import Mathlib

/-!
Verification development for the pharmacy-agent repository.

The Python modules `app/db.py`, `app/tools.py` and `app/agent.py` are
shallowly embedded over a model `PyValue` of Python values.  The Model
Backend (OpenAI client) is external: its decision-call response is an
input to the embedded orchestration core, and the core's observable
behaviour is an explicit event trace.
-/

namespace PharmacyAgent

/-- Model of the Python values flowing through the program: `None`,
booleans, integers, strings, lists, and string-keyed dicts (association
lists in insertion order, keys unique). -/
inductive PyValue where
  | none
  | bool (b : Bool)
  | int (n : Int)
  | str (s : String)
  | list (xs : List PyValue)
  | dict (kvs : List (String × PyValue))
deriving Repr

mutual

/-- Structural equality on modelled Python values (`==` in the source
compares strings and other values structurally on everything this
program compares). -/
def pyBeq : PyValue → PyValue → Bool
  | .none, .none => true
  | .bool a, .bool b => a == b
  | .int a, .int b => a == b
  | .str a, .str b => a == b
  | .list xs, .list ys => pyBeqList xs ys
  | .dict xs, .dict ys => pyBeqKVs xs ys
  | _, _ => false

def pyBeqList : List PyValue → List PyValue → Bool
  | [], [] => true
  | x :: xs, y :: ys => pyBeq x y && pyBeqList xs ys
  | _, _ => false

def pyBeqKVs : List (String × PyValue) → List (String × PyValue) → Bool
  | [], [] => true
  | (k1, v1) :: xs, (k2, v2) :: ys => k1 == k2 && pyBeq v1 v2 && pyBeqKVs xs ys
  | _, _ => false

end

mutual

theorem pyBeq_iff : ∀ (a b : PyValue), pyBeq a b = true ↔ a = b
  | .none, b => by cases b <;> simp [pyBeq]
  | .bool a, b => by cases b <;> simp [pyBeq]
  | .int a, b => by cases b <;> simp [pyBeq]
  | .str a, b => by cases b <;> simp [pyBeq]
  | .list xs, b => by
      cases b <;> simp [pyBeq]
      exact pyBeqList_iff xs _
  | .dict kvs, b => by
      cases b <;> simp [pyBeq]
      exact pyBeqKVs_iff kvs _

theorem pyBeqList_iff : ∀ (xs ys : List PyValue), pyBeqList xs ys = true ↔ xs = ys
  | [], ys => by cases ys <;> simp [pyBeqList]
  | x :: xs, ys => by
      cases ys with
      | nil => simp [pyBeqList]
      | cons y ys => simp [pyBeqList, pyBeq_iff x y, pyBeqList_iff xs ys]

theorem pyBeqKVs_iff : ∀ (xs ys : List (String × PyValue)),
    pyBeqKVs xs ys = true ↔ xs = ys
  | [], ys => by cases ys <;> simp [pyBeqKVs]
  | (k1, v1) :: xs, ys => by
      cases ys with
      | nil => simp [pyBeqKVs]
      | cons y ys =>
          obtain ⟨k2, v2⟩ := y
          simp [pyBeqKVs, pyBeq_iff v1 v2, pyBeqKVs_iff xs ys, Prod.ext_iff,
            and_assoc]

end

instance : BEq PyValue := ⟨pyBeq⟩

instance : DecidableEq PyValue := fun a b =>
  decidable_of_iff (pyBeq a b = true) (pyBeq_iff a b)

instance : LawfulBEq PyValue where
  eq_of_beq h := (pyBeq_iff _ _).mp h
  rfl := (pyBeq_iff _ _).mpr rfl

/-- Python truthiness (`bool(x)`) on the modelled values. -/
def truthy : PyValue → Bool
  | .none => false
  | .bool b => b
  | .int n => n != 0
  | .str s => s != ""
  | .list xs => !xs.isEmpty
  | .dict kvs => !kvs.isEmpty

/-- An ASCII single-quote character, used when embedding Python message
strings that quote their argument. -/
def sq : String := String.singleton (Char.ofNat 39)

/-- First value bound to key `k` (dict keys are unique by construction). -/
def dictGet? (kvs : List (String × PyValue)) (k : String) : Option PyValue :=
  (kvs.find? (fun kv => kv.fst == k)).map (fun kv => kv.snd)

/-- Models `x.get(k)` on a dict (and `getattr(x, k, None)` on the other
modelled values, none of which carries attributes): missing key gives
`None`. -/
def pyGet (v : PyValue) (k : String) : PyValue :=
  match v with
  | .dict kvs => (dictGet? kvs k).getD .none
  | _ => .none

/-- Models `x.get(k, default)` on a dict. -/
def pyGetD (v : PyValue) (k : String) (default : PyValue) : PyValue :=
  match v with
  | .dict kvs => (dictGet? kvs k).getD default
  | _ => default

/-- Models `d[k] = v`: overwrite the existing binding in place, else
append a new one (Python dict insertion-order semantics). -/
def setKey (kvs : List (String × PyValue)) (k : String) (v : PyValue) :
    List (String × PyValue) :=
  match kvs with
  | [] => [(k, v)]
  | (k0, v0) :: rest =>
      if k0 == k then (k0, v) :: rest else (k0, v0) :: setKey rest k v

/-- Characters removed by Python's `str.strip()` (ASCII whitespace; the
program only strips ASCII input around identifiers and names). -/
def isPySpace (c : Char) : Bool :=
  c == ' ' || c == '\t' || c == '\n' || c == '\r' || c == '\x0b' || c == '\x0c'

/-- Models `s.strip()`. -/
def pyStrip (s : String) : String :=
  ⟨((s.data.dropWhile isPySpace).reverse.dropWhile isPySpace).reverse⟩

/-- Models `s.lower()` (ASCII case folding; all dataset names whose case
matters are ASCII). -/
def pyLower (s : String) : String :=
  ⟨s.data.map Char.toLower⟩

mutual

/-- Models Python `repr` on the modelled values (used by `str` on
containers). -/
def pyRepr : PyValue → String
  | .none => "None"
  | .bool b => if b then "True" else "False"
  | .int n => toString n
  | .str s => sq ++ s ++ sq
  | .list xs => "[" ++ String.intercalate ", " (pyReprList xs) ++ "]"
  | .dict kvs => "\x7b" ++ String.intercalate ", " (pyReprKVs kvs) ++ "\x7d"

def pyReprList : List PyValue → List String
  | [] => []
  | v :: vs => pyRepr v :: pyReprList vs

def pyReprKVs : List (String × PyValue) → List String
  | [] => []
  | (k, v) :: kvs => (sq ++ k ++ sq ++ ": " ++ pyRepr v) :: pyReprKVs kvs

end

/-- Models Python `str(x)` as used by f-string interpolation. -/
def pyStr : PyValue → String
  | .str s => s
  | v => pyRepr v

/-- The user dataset from `app/db.py` (`USERS`). -/
def USERS : List PyValue := [
  .dict [("user_id", .str "u001"), ("name", .str "Einat Shvartz"),
    ("prescriptions", .list [.str "Amoxicillin", .str "Metformin"])],
  .dict [("user_id", .str "u002"), ("name", .str "Guy Lurya"),
    ("prescriptions", .list [])],
  .dict [("user_id", .str "u003"), ("name", .str "Noa Kasher"),
    ("prescriptions", .list [.str "Amoxicillin"])],
  .dict [("user_id", .str "u004"), ("name", .str "Amit Wiez"),
    ("prescriptions", .list [])],
  .dict [("user_id", .str "u005"), ("name", .str "Lea London"),
    ("prescriptions", .list [.str "Metformin"])],
  .dict [("user_id", .str "u006"), ("name", .str "Maya Rubin"),
    ("prescriptions", .list [])],
  .dict [("user_id", .str "u007"), ("name", .str "Tamar Levi"),
    ("prescriptions", .list [.str "Amoxicillin"])],
  .dict [("user_id", .str "u008"), ("name", .str "Tair Cohen"),
    ("prescriptions", .list [])],
  .dict [("user_id", .str "u009"), ("name", .str "Nicole Kaplan"),
    ("prescriptions", .list [.str "Metformin"])],
  .dict [("user_id", .str "u010"), ("name", .str "Omri Paz"),
    ("prescriptions", .list [])]]

/-- The medication dataset from `app/db.py` (`MEDICATIONS`). -/
def MEDICATIONS : List PyValue := [
  .dict [("name", .str "Paracetamol"),
    ("active_ingredient", .str "Acetaminophen"),
    ("requires_prescription", .bool false),
    ("dosage_instruction", .dict [
      ("dose_amount", .str "500 mg"),
      ("frequency", .str "every 4–6 hours"),
      ("max_daily", .str "Do not exceed 4,000 mg in 24 hours (label guidance).")]),
    ("usage_instructions", .str "Take with water. Follow the package directions."),
    ("safety_instructions", .str ("Do not use if you are allergic to acetaminophen. " ++
      "Avoid combining with other products containing acetaminophen. " ++
      "Follow the label and consult a healthcare professional for personal medical advice.")),
    ("stock", .int 42)],
  .dict [("name", .str "Ibuprofen"),
    ("active_ingredient", .str "Ibuprofen"),
    ("requires_prescription", .bool false),
    ("dosage_instruction", .dict [
      ("dose_amount", .str "200–400 mg"),
      ("frequency", .str "every 6–8 hours"),
      ("max_daily", .str "Do not exceed 1,200 mg in 24 hours unless directed by a clinician (label guidance).")]),
    ("usage_instructions", .str "Take with food or milk to reduce stomach upset. Follow the package directions."),
    ("safety_instructions", .str ("Do not use if you are allergic to ibuprofen/NSAIDs. " ++
      "May increase risk of stomach bleeding; follow label warnings. " ++
      "Consult a healthcare professional for pregnancy/medical conditions or personal medical advice.")),
    ("stock", .int 18)],
  .dict [("name", .str "Amoxicillin"),
    ("active_ingredient", .str "Amoxicillin"),
    ("requires_prescription", .bool true),
    ("dosage_instruction", .dict [
      ("dose_amount", .str "As prescribed"),
      ("frequency", .str "As prescribed"),
      ("max_daily", .str "As prescribed")]),
    ("usage_instructions", .str "Prescription-only. Take exactly as prescribed. Complete the full course if instructed."),
    ("safety_instructions", .str ("Do not use if you have a penicillin allergy. " ++
      "Follow the prescriber’s directions and consult a healthcare professional for side effects or concerns.")),
    ("stock", .int 10)],
  .dict [("name", .str "Cetirizine"),
    ("active_ingredient", .str "Cetirizine"),
    ("requires_prescription", .bool false),
    ("dosage_instruction", .dict [
      ("dose_amount", .str "10 mg"),
      ("frequency", .str "once daily"),
      ("max_daily", .str "Do not exceed 10 mg in 24 hours (label guidance).")]),
    ("usage_instructions", .str "May be taken with or without food. Follow the package directions."),
    ("safety_instructions", .str ("Do not use if you are allergic to cetirizine. " ++
      "May cause drowsiness in some people; follow label warnings. " ++
      "Consult a healthcare professional for pregnancy/breastfeeding or personal medical advice.")),
    ("stock", .int 0)],
  .dict [("name", .str "Metformin"),
    ("active_ingredient", .str "Metformin"),
    ("requires_prescription", .bool true),
    ("dosage_instruction", .dict [
      ("dose_amount", .str "As prescribed"),
      ("frequency", .str "As prescribed"),
      ("max_daily", .str "As prescribed")]),
    ("usage_instructions", .str "Prescription-only. Take with meals as prescribed to reduce stomach upset."),
    ("safety_instructions", .str ("Do not use if you are allergic to metformin. " ++
      "Follow the prescriber’s directions and consult a healthcare professional for side effects or concerns.")),
    ("stock", .int 6)]]

/-! ## Tool Layer (`app/tools.py`)

Tool operations can be invoked through `**args` with arbitrary values,
so each is embedded as a fallible function `PyValue → Except String
PyValue`: `Except.error` models an uncaught Python exception, `Except.ok`
the returned envelope (a dict).  On the static dataset every record
field has the expected shape, so the defensive error branches below that
mirror Python attribute/type faults are unreachable for string inputs. -/

/-- Stored `m["name"].lower()`; every `MEDICATIONS` record has a string
name, so the fallback is unreachable on the dataset. -/
def storedMedNameLower (m : PyValue) : String :=
  match pyGet m "name" with
  | .str t => pyLower t
  | _ => ""

/-- Embeds `_find_med_by_name` (tools.py lines 5-12): falsy name gives
no record; otherwise strip+lower the query and scan `MEDICATIONS` for a
record whose lowered stored name matches.  A truthy non-string query
raises (`.strip()` on a non-string). -/
def _find_med_by_name (name : PyValue) : Except String (Option PyValue) :=
  if truthy name = false then .ok Option.none
  else match name with
    | .str s =>
        let name_l := pyLower (pyStrip s)
        .ok (MEDICATIONS.find? (fun m => storedMedNameLower m == name_l))
    | _ => .error "AttributeError: object has no attribute strip"

/-- Embeds `_find_user_by_id` (tools.py lines 15-22): falsy id gives no
record; otherwise strip the id (no case folding) and scan `USERS` for
`u.get("user_id") == uid`. -/
def _find_user_by_id (user_id : PyValue) : Except String (Option PyValue) :=
  if truthy user_id = false then .ok Option.none
  else match user_id with
    | .str s =>
        let uid := pyStrip s
        .ok (USERS.find? (fun u => pyGet u "user_id" == PyValue.str uid))
    | _ => .error "AttributeError: object has no attribute strip"

/-- Python `if not x:` applied to an optional lookup result. -/
def optFalsy : Option PyValue → Bool
  | Option.none => true
  | some v => !(truthy v)

/-- Embeds `get_user` (tools.py lines 25-56). -/
def get_user (user_id : PyValue) : Except String PyValue := do
  let user? ← _find_user_by_id user_id
  if optFalsy user? then
    pure (.dict [("found", .bool false),
      ("error", .dict [("code", .str "UNKNOWN_USER"),
        ("message", .str ("User " ++ sq ++ pyStr user_id ++ sq ++ " not found"))])])
  else
    let user := user?.getD .none
    pure (.dict [("found", .bool true),
      ("user", .dict [("user_id", pyGet user "user_id"),
        ("name", pyGet user "name"),
        ("prescriptions", pyGetD user "prescriptions" (.list []))])])

/-- Embeds `get_medication_by_name` (tools.py lines 59-90). -/
def get_medication_by_name (name : PyValue) : Except String PyValue := do
  let med? ← _find_med_by_name name
  if optFalsy med? then
    pure (.dict [("found", .bool false),
      ("error", .dict [("code", .str "NOT_FOUND"),
        ("message", .str ("Medication " ++ sq ++ pyStr name ++ sq ++ " not found"))])])
  else
    let med := med?.getD .none
    pure (.dict [("found", .bool true),
      ("medication", .dict [
        ("name", pyGet med "name"),
        ("active_ingredient", pyGet med "active_ingredient"),
        ("requires_prescription", .bool (truthy (pyGet med "requires_prescription"))),
        ("dosage_instruction", pyGetD med "dosage_instruction" (.dict [])),
        ("usage_instructions", pyGet med "usage_instructions"),
        ("safety_instructions", pyGet med "safety_instructions"),
        ("stock", pyGet med "stock")])])

/-- Python `int(x)` on the values that can reach it here (`stock` fields
are ints on the dataset; anything else raises). -/
def py_int : PyValue → Except String Int
  | .int n => .ok n
  | .bool b => .ok (if b then 1 else 0)
  | _ => .error "TypeError: int() argument must be a number"

/-- Embeds `check_stock` (tools.py lines 92-118). -/
def check_stock (name : PyValue) : Except String PyValue := do
  let med? ← _find_med_by_name name
  if optFalsy med? then
    pure (.dict [("found", .bool false),
      ("error", .dict [("code", .str "NOT_FOUND"),
        ("message", .str ("Medication " ++ sq ++ pyStr name ++ sq ++ " not found"))])])
  else
    let med := med?.getD .none
    let stock ← py_int (pyGetD med "stock" (.int 0))
    pure (.dict [("found", .bool true),
      ("name", pyGet med "name"),
      ("stock", .int stock)])

/-- The elements iterated by `for x in prescriptions` (a list on the
dataset; the fallback is unreachable there). -/
def iterList : PyValue → List PyValue
  | .list xs => xs
  | _ => []

/-- Embeds `check_prescription` (tools.py lines 121-175): user gate,
medication lookup, then a case-insensitive membership test of the
canonical medication name in the user's prescription set. -/
def check_prescription (user_id name : PyValue) : Except String PyValue := do
  let user? ← _find_user_by_id user_id
  if optFalsy user? then
    pure (.dict [("ok", .bool false),
      ("error", .dict [("code", .str "UNKNOWN_USER"),
        ("message", .str ("User " ++ sq ++ pyStr user_id ++ sq ++ " not found"))])])
  else
    let user := user?.getD .none
    let med? ← _find_med_by_name name
    if optFalsy med? then
      pure (.dict [("ok", .bool false),
        ("error", .dict [("code", .str "NOT_FOUND"),
          ("message", .str ("Medication " ++ sq ++ pyStr name ++ sq ++ " not found"))])])
    else
      let med := med?.getD .none
      let canonical_name := pyGet med "name"
      let requires := truthy (pyGet med "requires_prescription")
      let prescriptions := pyGetD user "prescriptions" (.list [])
      let presc_set := (iterList prescriptions).map (fun x => pyLower (pyStrip (pyStr x)))
      let user_has := presc_set.contains (pyLower (pyStrip (pyStr canonical_name)))
      pure (.dict [("ok", .bool true),
        ("name", canonical_name),
        ("requires_prescription", .bool requires),
        ("user_has_prescription", .bool user_has)])

/-! ## JSON parsing (`json.loads`)

`_normalize_args` parses textual tool arguments with `json.loads`.  The
parser below models `json.loads` on the JSON fragment whose values fit
the `PyValue` model: `null`, booleans, integer numbers, strings with the
single-character escapes, arrays and objects (duplicate object keys keep
the last binding, as in Python).  Non-integer numeric literals and
`\u` escapes lie outside the value model and are rejected. -/

/-- JSON insignificant whitespace. -/
def skipWs : List Char → List Char
  | [] => []
  | c :: rest =>
      if c == ' ' || c == '\t' || c == '\n' || c == '\r' then skipWs rest
      else c :: rest

/-- Consume an expected literal character sequence. -/
def expectLit : List Char → List Char → Option (List Char)
  | [], s => some s
  | c :: cs, d :: ds => if c == d then expectLit cs ds else Option.none
  | _ :: _, [] => Option.none

/-- Split off a leading run of decimal digits. -/
def takeDigits : List Char → List Char × List Char
  | [] => ([], [])
  | c :: rest =>
      if c.isDigit then
        let (ds, r) := takeDigits rest
        (c :: ds, r)
      else ([], c :: rest)

/-- Value of a digit run. -/
def natOfDigits (ds : List Char) : Nat :=
  ds.foldl (fun n c => n * 10 + (c.toNat - 48)) 0

/-- Parse a JSON number (integer literals only; a fraction or exponent
is outside the value model). -/
def parseNum (s : List Char) : Except String (PyValue × List Char) :=
  let (neg, s1) :=
    match s with
    | c :: rest => if c == '-' then (true, rest) else (false, s)
    | [] => (false, s)
  let (ds, r) := takeDigits s1
  if ds.isEmpty then .error "Expecting value"
  else
    let mk : Except String (PyValue × List Char) :=
      let n : Int := Int.ofNat (natOfDigits ds)
      .ok (.int (if neg then -n else n), r)
    match r with
    | c :: _ =>
        if c == '.' || c == 'e' || c == 'E' then
          .error "non-integer number outside the value model"
        else mk
    | [] => mk

/-- Parse the body of a JSON string after the opening quote, decoding
the single-character escapes. -/
def parseStrChars : Nat → List Char → Except String (List Char × List Char)
  | 0, _ => .error "fuel exhausted"
  | _ + 1, [] => .error "Unterminated string"
  | fuel + 1, c :: rest =>
      if c == '\"' then .ok ([], rest)
      else if c == '\\' then
        match rest with
        | [] => .error "Unterminated string"
        | e :: rest2 =>
            let dec : Option Char :=
              if e == '\"' then some '\"'
              else if e == '\\' then some '\\'
              else if e == '/' then some '/'
              else if e == 'n' then some '\n'
              else if e == 't' then some '\t'
              else if e == 'r' then some '\r'
              else if e == 'b' then some (Char.ofNat 8)
              else if e == 'f' then some (Char.ofNat 12)
              else Option.none
            match dec with
            | some d => do
                let (cs, rest3) ← parseStrChars fuel rest2
                .ok (d :: cs, rest3)
            | Option.none => .error "escape outside the value model"
      else do
        let (cs, rest2) ← parseStrChars fuel rest
        .ok (c :: cs, rest2)

mutual

/-- Parse one JSON value. -/
def parseVal : Nat → List Char → Except String (PyValue × List Char)
  | 0, _ => .error "fuel exhausted"
  | fuel + 1, s =>
      match skipWs s with
      | [] => .error "Expecting value"
      | c :: rest =>
          if c == 'n' then
            match expectLit ['u', 'l', 'l'] rest with
            | some r => .ok (.none, r)
            | Option.none => .error "Expecting value"
          else if c == 't' then
            match expectLit ['r', 'u', 'e'] rest with
            | some r => .ok (.bool true, r)
            | Option.none => .error "Expecting value"
          else if c == 'f' then
            match expectLit ['a', 'l', 's', 'e'] rest with
            | some r => .ok (.bool false, r)
            | Option.none => .error "Expecting value"
          else if c == '\"' then do
            let (cs, r) ← parseStrChars fuel rest
            .ok (.str ⟨cs⟩, r)
          else if c == '[' then
            match skipWs rest with
            | d :: r2 => if d == ']' then .ok (.list [], r2) else parseElems fuel rest []
            | [] => .error "Expecting value"
          else if c == Char.ofNat 123 then
            match skipWs rest with
            | d :: r2 =>
                if d == Char.ofNat 125 then .ok (.dict [], r2)
                else parseMembers fuel rest []
            | [] => .error "Expecting property name"
          else parseNum (c :: rest)

/-- Parse the elements of a non-empty JSON array. -/
def parseElems : Nat → List Char → List PyValue → Except String (PyValue × List Char)
  | 0, _, _ => .error "fuel exhausted"
  | fuel + 1, s, acc => do
      let (v, r) ← parseVal fuel s
      match skipWs r with
      | c :: r2 =>
          if c == ',' then parseElems fuel r2 (acc ++ [v])
          else if c == ']' then .ok (.list (acc ++ [v]), r2)
          else .error "Expecting delimiter"
      | [] => .error "Expecting delimiter"

/-- Parse the members of a non-empty JSON object (last duplicate key
wins, as for Python dicts). -/
def parseMembers : Nat → List Char → List (String × PyValue) →
    Except String (PyValue × List Char)
  | 0, _, _ => .error "fuel exhausted"
  | fuel + 1, s, acc =>
      match skipWs s with
      | c :: rest =>
          if c == '\"' then do
            let (kcs, r) ← parseStrChars fuel rest
            match skipWs r with
            | d :: r2 =>
                if d == ':' then do
                  let (v, r3) ← parseVal fuel r2
                  let acc2 := setKey acc ⟨kcs⟩ v
                  match skipWs r3 with
                  | e :: r4 =>
                      if e == ',' then parseMembers fuel r4 acc2
                      else if e == Char.ofNat 125 then .ok (.dict acc2, r4)
                      else .error "Expecting delimiter"
                  | [] => .error "Expecting delimiter"
                else .error "Expecting colon"
            | [] => .error "Expecting colon"
          else .error "Expecting property name"
      | [] => .error "Expecting property name"

end

/-- Models `json.loads` on the modelled JSON fragment: parse one value
and require only whitespace to follow. -/
def json_loads (s : String) : Except String PyValue := do
  let (v, rest) ← parseVal (2 * s.length + 16) s.data
  match skipWs rest with
  | [] => .ok v
  | _ => .error "Extra data"

/-- Embeds `_normalize_args` (agent.py lines 129-139): `None` becomes
the empty dict, a dict passes through, a string is given to
`json.loads` with the empty dict substituted on failure, and any other
value becomes the empty dict. -/
def _normalize_args (arguments : PyValue) : PyValue :=
  match arguments with
  | .none => .dict []
  | .dict kvs => .dict kvs
  | .str s =>
      match json_loads s with
      | .ok v => v
      | .error _ => .dict []
  | _ => .dict []

/-! ## Orchestration core (`app/agent.py`)

The Model Backend is external: the decision call's response `resp` is an
input of the embedded core, and the core's observable behaviour is the
ordered list of `Event`s it performs.  A streaming call's relayed
text-delta events are produced by the backend and are not modelled
beyond the `streamCall` event that issues the call. -/

/-- The fixed system instructions (`SYSTEM_PROMPT`, agent.py lines
24-50). -/
def SYSTEM_PROMPT : String :=
"
You are a real-time conversational pharmacy assistant for a retail pharmacy chain.

You are STATELESS: do not assume any memory of past messages beyond the current user message and tool outputs.

Language:
- Answer in the same language as the user (Hebrew or English).

Safety / Policy:
- Provide factual information about medications based on the provided tools.
- Use ONLY the internal database provided via tools for factual medical information. Do NOT use any other source.
- You MAY explain dosage/usage instructions as general label-style information (non-personalized).
- NO medical advice, NO diagnosis, NO treatment recommendations, NO suitability judgments.
- Do NOT encourage purchasing.
- If the user requests advice (e.g., “what should I take for…”, “is it safe for me?”, “what do you recommend?”),
  refuse briefly and redirect to a pharmacist/doctor.
- Do NOT end your responses with a follow-up question UNLESS a clarifying question is REQUIRED to use the tools.
- If a medication name is provided in Hebrew - When using tools, pass the english translation of the medical name.
- Style: Be concise and final. Avoid offers like “If you’d like, I can…”. Provide the answer and stop.
- Capability limits: Never claim you can check other branches, check locations, set notifications, place orders, reserve items, arrange pickup, or check refill/pickup status.


Tool usage (IMPORTANT):
- For any question about medication details (dosage/usage/safety), stock/availability, or prescription requirements,
  you MUST use the provided tools and not guess.
- If the medication name is missing or ambiguous, ask a short clarifying question.
"

/-- Embeds `_looks_hebrew` (agent.py lines 142-146): true iff some
character lies in the Hebrew block U+0590..U+05FF. -/
def _looks_hebrew (text : String) : Bool :=
  text.data.any (fun ch => decide ('֐' ≤ ch) && decide (ch ≤ '׿'))

/-- Keyword-unpack `f(**args)` for a one-parameter tool: `args` must be
a mapping binding exactly the required parameter, else the call raises
`TypeError`. -/
def kwargs1 (args : PyValue) (k : String) : Except String PyValue :=
  match args with
  | .dict kvs =>
      match dictGet? kvs k with
      | some v =>
          if kvs.length == 1 then .ok v
          else .error "TypeError: unexpected keyword argument"
      | Option.none => .error ("TypeError: missing required argument " ++ sq ++ k ++ sq)
  | _ => .error "TypeError: argument after ** must be a mapping"

/-- Keyword-unpack `f(**args)` for a two-parameter tool. -/
def kwargs2 (args : PyValue) (k1 k2 : String) : Except String (PyValue × PyValue) :=
  match args with
  | .dict kvs =>
      match dictGet? kvs k1, dictGet? kvs k2 with
      | some v1, some v2 =>
          if kvs.length == 2 then .ok (v1, v2)
          else .error "TypeError: unexpected keyword argument"
      | _, _ => .error "TypeError: missing required argument"
  | _ => .error "TypeError: argument after ** must be a mapping"

/-- Embeds `_run_tool` (agent.py lines 94-101): route by tool name to
the Tool Layer, passing the argument mapping as keywords; an
unrecognised name returns the `UNKNOWN_TOOL` envelope.  `Except.error`
models an exception escaping to the call site. -/
def _run_tool (tool_name args : PyValue) : Except String PyValue :=
  if tool_name == PyValue.str "get_medication_by_name" then do
    let name ← kwargs1 args "name"
    get_medication_by_name name
  else if tool_name == PyValue.str "check_stock" then do
    let name ← kwargs1 args "name"
    check_stock name
  else if tool_name == PyValue.str "check_prescription" then do
    let un ← kwargs2 args "user_id" "name"
    check_prescription un.fst un.snd
  else
    .ok (.dict [("ok", .bool false),
      ("error", .dict [("code", .str "UNKNOWN_TOOL"),
        ("message", .str ("Tool " ++ sq ++ pyStr tool_name ++ sq ++ " not implemented"))])])

/-- Embeds the `try`/`except` around `_run_tool` (agent.py lines
223-233): any exception from the dispatched tool becomes a `TOOL_ERROR`
envelope carrying the exception's message text. -/
def dispatch_call (tool_name args : PyValue) : PyValue :=
  match _run_tool tool_name args with
  | .ok result => result
  | .error e =>
      .dict [("ok", .bool false),
        ("error", .dict [("code", .str "TOOL_ERROR"), ("message", .str e)])]

/-- `output = getattr(resp, "output", None)`, falling back to
`resp.get("output")` for mapping-shaped responses (agent.py lines
111-113 and 269-271). -/
def respOutputOf (resp : PyValue) : PyValue :=
  match resp with
  | .dict kvs => (dictGet? kvs "output").getD .none
  | _ => .none

/-- The element sequence of `for item in x:` / `list.extend(x)` on the
iterable modelled values (`None` for a non-iterable, which raises). -/
def iterPy : PyValue → Option (List PyValue)
  | .list xs => some xs
  | .str s => some (s.data.map fun c => .str (String.singleton c))
  | .dict kvs => some (kvs.map fun kv => .str kv.fst)
  | _ => Option.none

/-- One extracted tool call: name, raw arguments, correlation id
(the dict appended at agent.py line 124). -/
structure FnCall where
  name : PyValue
  arguments : PyValue
  call_id : PyValue
deriving Repr, DecidableEq

/-- The per-item step of `_extract_function_calls`: keep an item whose
`type` field reads `"function_call"`. -/
def extractOne (item : PyValue) : Option FnCall :=
  if pyGet item "type" == PyValue.str "function_call" then
    some ⟨pyGet item "name", pyGet item "arguments", pyGet item "call_id"⟩
  else Option.none

/-- Embeds `_extract_function_calls` (agent.py lines 104-126): a falsy
output yields no calls; otherwise iterate the output and collect every
`function_call` item in order. -/
def _extract_function_calls (resp : PyValue) : Except String (List FnCall) :=
  let output := respOutputOf resp
  if truthy output = false then .ok []
  else
    match iterPy output with
    | some items => .ok (items.filterMap extractOne)
    | Option.none => .error "TypeError: object is not iterable"

/-- Substring test for Python `sub in s` on strings. -/
def startsWithChars : List Char → List Char → Bool
  | [], _ => true
  | _ :: _, [] => false
  | c :: cs, d :: ds => c == d && startsWithChars cs ds

def hasSubChars (sub : List Char) : List Char → Bool
  | [] => sub.isEmpty
  | c :: cs => startsWithChars sub (c :: cs) || hasSubChars sub cs

def strContains (s sub : String) : Bool :=
  hasSubChars sub.data s.data

/-- Python membership `x in container` on the modelled values
(`Except.error` models the `TypeError` raised on a non-iterable
container or an unhashable probe into a dict). -/
def pyIn (x container : PyValue) : Except String Bool :=
  match container with
  | .dict kvs =>
      match x with
      | .str k => .ok ((dictGet? kvs k).isSome)
      | .list _ => .error "TypeError: unhashable type"
      | .dict _ => .error "TypeError: unhashable type"
      | _ => .ok false
  | .list xs => .ok (xs.contains x)
  | .str s =>
      match x with
      | .str sub => .ok (strContains s sub)
      | _ => .error "TypeError: in <string> requires string as left operand"
  | _ => .error "TypeError: argument is not iterable"

/-- Python `container[k] = v` (`TypeError` on the non-mapping modelled
values that can reach it). -/
def pySetItem (container : PyValue) (k : String) (v : PyValue) : Except String PyValue :=
  match container with
  | .dict kvs => .ok (.dict (setKey kvs k v))
  | _ => .error "TypeError: object does not support item assignment"

/-- The argument mapping handed to the dispatcher for one call
(agent.py lines 214-219): normalize the raw arguments, then for
`check_prescription` with no `user_id` key, inject the gated request's
user identifier.  These lines run outside the `try` block, so a raised
fault propagates. -/
def callArgs (user_id : String) (call : FnCall) : Except String PyValue := do
  let args := _normalize_args call.arguments
  if call.name == PyValue.str "check_prescription" then do
    let has ← pyIn (.str "user_id") args
    if has then .ok args else pySetItem args "user_id" (.str user_id)
  else .ok args

/-- One `function_call_output` item (agent.py lines 235-241).  The
result envelope is JSON-serialized into the item and parsed back by the
scan at lines 244-248; that serialize/parse round trip is modelled as
the identity, so the item carries the envelope itself. -/
def mkOutputItem (call_id result : PyValue) : PyValue :=
  .dict [("type", .str "function_call_output"), ("call_id", call_id),
    ("output", result)]

/-- An action the orchestration core performs, in order: the decision
call, a directly-yielded chunk, one tool dispatch, a streaming model
call (with or without the tool schema attached), or an uncaught
exception terminating the generator. -/
inductive Event where
  | decisionCall (input : List PyValue)
  | yield (chunk : String)
  | toolDispatch (name args : PyValue)
  | streamCall (input : List PyValue) (toolsAttached : Bool)
  | raise (err : String)
deriving Repr, DecidableEq

/-- The tool-execution loop (agent.py lines 212-241): per call, build
the argument mapping, dispatch, and collect the output item.  Returns
the dispatch events, the collected `tool_outputs`, and the error of a
fault raised outside the `try` block (which aborts the loop). -/
def processCalls (user_id : String) : List FnCall → List Event × List PyValue × Option String
  | [] => ([], [], Option.none)
  | call :: rest =>
      match callArgs user_id call with
      | .error e => ([], [], some e)
      | .ok args =>
          let result := dispatch_call call.name args
          let out := mkOutputItem call.call_id result
          let (evs, outs, err?) := processCalls user_id rest
          (.toolDispatch call.name args :: evs, out :: outs, err?)

/-- The `NOT_FOUND` test applied to one collected output item
(agent.py lines 244-250): read back the serialized envelope and compare
`result.get("error", {}).get("code")` with `"NOT_FOUND"`. -/
def scanNotFound (out : PyValue) : Bool :=
  let result := pyGet out "output"
  pyGet (pyGetD result "error" (.dict [])) "code" == PyValue.str "NOT_FOUND"

def hasNotFound (tool_outputs : List PyValue) : Bool :=
  tool_outputs.any scanNotFound

/-- Unknown-user message, Hebrew variant (agent.py line 168). -/
def unknownUserMsgHe (user_id : String) : String :=
  "לא מצאתי את המשתמש במערכת (user_id: " ++ user_id ++
    "), ולכן לא אוכל להמשיך. אם יש לך user_id אחר, שלחי/שלח אותו בבקשה."

/-- Unknown-user message, English variant (agent.py line 170). -/
def unknownUserMsgEn (user_id : String) : String :=
  "I couldn’t find this user in our system (user_id: " ++ user_id ++
    "), so I can’t proceed. Please provide a valid user_id."

/-- Medication-not-found apology, Hebrew variant (agent.py lines
252-256). -/
def apologyHe : String :=
  "מצטער/ת, לא מצאתי את שם התרופה במאגר הפנימי של בית המרקחת, " ++
    "ולכן אינני יכול/ה לספק מידע עליה. " ++
    "אם תרצה/י, אפשר לבדוק שוב עם איות מדויק (ובאנגלית אם יש), או לציין שם מסחרי."

/-- Medication-not-found apology, English variant (agent.py lines
258-262). -/
def apologyEn : String :=
  "Sorry — I couldn’t find that medication in our internal pharmacy database, " ++
    "so I can’t provide information about it. " ++
    "If you’d like, please confirm the exact spelling (and the generic/brand name)."

/-- Internal-consistency fallback (agent.py line 274). -/
def internalErrMsg : String :=
  "\nSorry — internal error: missing tool call context."

/-- The conversation input of the decision call (agent.py lines
176-180): system instructions, user context, user message. -/
def base_input (user_id user_message : String) (user_res : PyValue) : List PyValue :=
  [.dict [("role", .str "system"), ("content", .str SYSTEM_PROMPT)],
   .dict [("role", .str "system"), ("content", .str ("User context: user_id=" ++
     user_id ++ ", name=" ++ pyStr (pyGet (pyGet user_res "user") "name") ++
     ", prescriptions=" ++ pyStr (pyGetD (pyGet user_res "user") "prescriptions" (.list []))))],
   .dict [("role", .str "user"), ("content", .str user_message)]]

/-- Embeds `stream_agent_reply` (agent.py lines 152-290) as the event
trace of one request, with the decision-call response `resp` supplied by
the external Model Backend. -/
def stream_agent_reply (user_id user_message : String) (resp : PyValue) : List Event :=
  match get_user (.str user_id) with
  | .error e => [.raise e]
  | .ok user_res =>
      if truthy (pyGet user_res "found") = false then
        if _looks_hebrew user_message then [.yield (unknownUserMsgHe user_id)]
        else [.yield (unknownUserMsgEn user_id)]
      else
        let base := base_input user_id user_message user_res
        Event.decisionCall base ::
          match _extract_function_calls resp with
          | .error e => [.raise e]
          | .ok tool_calls =>
              if tool_calls.isEmpty then [.streamCall base false]
              else
                match processCalls user_id tool_calls with
                | (evs, _, some e) => evs ++ [.raise e]
                | (evs, tool_outputs, Option.none) =>
                    evs ++
                      (if hasNotFound tool_outputs then
                        if _looks_hebrew user_message then [.yield apologyHe]
                        else [.yield apologyEn]
                      else
                        let resp_output := respOutputOf resp
                        if truthy resp_output = false then [.yield internalErrMsg]
                        else
                          match iterPy resp_output with
                          | some items =>
                              [.streamCall (base ++ items ++ tool_outputs) true]
                          | Option.none => [.raise "TypeError: object is not iterable"])

/-! ## Observations on traces and envelopes -/

/-- Is this value a Python mapping? -/
def isDict : PyValue → Bool
  | .dict _ => true
  | _ => false

def isYieldEv : Event → Bool
  | .yield _ => true
  | _ => false

def isStreamCallEv : Event → Bool
  | .streamCall _ _ => true
  | _ => false

/-- Any request to the Model Backend: the decision call or a streaming
call. -/
def isModelCallEv : Event → Bool
  | .decisionCall _ => true
  | .streamCall _ _ => true
  | _ => false

def isDispatchEv : Event → Bool
  | .toolDispatch _ _ => true
  | _ => false

/-- The output item one call contributes (the per-call body of the
execution loop, with an arbitrary placeholder in the branch where the
loop would instead have raised). -/
def callOutputItem (user_id : String) (call : FnCall) : PyValue :=
  match callArgs user_id call with
  | .ok args => mkOutputItem call.call_id (dispatch_call call.name args)
  | .error _ => mkOutputItem call.call_id .none

/-- A `function_call` response output item, as emitted by the Model
Backend (used by the concrete scenarios below). -/
def fcItem (name : String) (args : PyValue) (cid : String) : PyValue :=
  .dict [("type", .str "function_call"), ("name", .str name),
    ("arguments", args), ("call_id", .str cid)]

/-- Concrete decision response: one lookup that will miss the dataset
next to one that succeeds (exercises the short-circuit with a
successful sibling). -/
def respC1 : PyValue :=
  .dict [("output", .list [
    fcItem "check_stock" (.dict [("name", .str "Paracetamol")]) "call_1",
    fcItem "get_medication_by_name" (.dict [("name", .str "DoesNotExist")]) "call_2"])]

/-- Concrete decision response: two succeeding calls with distinct call
ids (exercises the final-call round trip). -/
def respC3 : PyValue :=
  .dict [("output", .list [
    fcItem "check_stock" (.dict [("name", .str "Paracetamol")]) "call_a",
    fcItem "check_prescription" (.dict [("name", .str "Amoxicillin")]) "call_b"])]

end PharmacyAgent

namespace PharmacyAgent

/-! ## Supporting lemmas -/

theorem setKey_absent : ∀ (kvs : List (String × PyValue)) (k : String) (v : PyValue),
    dictGet? kvs k = Option.none → setKey kvs k v = kvs ++ [(k, v)]
  | [], _, _, _ => rfl
  | (k0, v0) :: rest, k, v, h => by
      by_cases hk : (k0 == k) = true
      · exfalso; simp [dictGet?, List.find?, hk] at h
      · have h' : dictGet? rest k = Option.none := by
          simpa [dictGet?, List.find?, hk] using h
        simp [setKey, hk, setKey_absent rest k v h']

theorem dictGet?_append_absent : ∀ (kvs : List (String × PyValue)) (k : String) (v : PyValue),
    dictGet? kvs k = Option.none → dictGet? (kvs ++ [(k, v)]) k = some v
  | [], k, v, _ => by simp [dictGet?, List.find?]
  | (k0, v0) :: rest, k, v, h => by
      by_cases hk : (k0 == k) = true
      · exfalso; simp [dictGet?, List.find?, hk] at h
      · have h' : dictGet? rest k = Option.none := by
          simpa [dictGet?, List.find?, hk] using h
        simpa [dictGet?, List.find?, hk] using dictGet?_append_absent rest k v h'

theorem callOutputItem_call_id (user_id : String) (call : FnCall) :
    pyGet (callOutputItem user_id call) "call_id" = call.call_id := by
  unfold callOutputItem
  cases callArgs user_id call <;>
    simp [mkOutputItem, pyGet, dictGet?, List.find?]

/-- Every event recorded by the execution loop is a tool dispatch. -/
theorem processCalls_events_dispatch (user_id : String) :
    ∀ (calls : List FnCall), ∀ e ∈ (processCalls user_id calls).1,
      isDispatchEv e = true
  | [], e, he => by simp [processCalls] at he
  | call :: rest, e, he => by
      unfold processCalls at he
      cases h : callArgs user_id call with
      | error err => rw [h] at he; simp at he
      | ok args =>
          rw [h] at he
          simp only [List.mem_cons] at he
          rcases he with he | he
          · subst he; rfl
          · exact processCalls_events_dispatch user_id rest e he

/-- When the loop completes without raising, each collected output item
is a function of its own call alone, in call order. -/
theorem processCalls_outputs (user_id : String) :
    ∀ (calls : List FnCall) (evs : List Event) (outs : List PyValue),
      processCalls user_id calls = (evs, outs, Option.none) →
      outs = calls.map (callOutputItem user_id)
  | [], evs, outs, h => by
      simp only [processCalls, Prod.mk.injEq] at h
      simp [h.2.1]
  | call :: rest, evs, outs, h => by
      unfold processCalls at h
      cases hc : callArgs user_id call with
      | error err => rw [hc] at h; simp at h
      | ok args =>
          rw [hc] at h
          rcases hp : processCalls user_id rest with ⟨revs, routs, rerr⟩
          rw [hp] at h
          simp only [Prod.mk.injEq] at h
          obtain ⟨hevs, houts, herr⟩ := h
          subst houts
          cases rerr with
          | none =>
              have hrest := processCalls_outputs user_id rest revs routs hp
              simp [List.map_cons, callOutputItem, hc, hrest]
          | some e => simp at herr

/-- A non-empty extracted call list forces the decision output to be a
non-empty (hence truthy) list of items. -/
theorem extract_calls_output_list (resp : PyValue) (calls : List FnCall)
    (hx : _extract_function_calls resp = .ok calls) (hne : calls ≠ []) :
    ∃ items, respOutputOf resp = .list items ∧ items ≠ [] ∧
      truthy (.list items) = true := by
  unfold _extract_function_calls at hx
  rcases hout : respOutputOf resp with _ | b | n | s | items | kvs <;> rw [hout] at hx
  case none => simp [truthy] at hx; exact absurd hx hne
  case bool => cases b <;> simp [truthy, iterPy] at hx; exact absurd hx hne
  case int =>
      by_cases hn : n = 0
      · subst hn; simp [truthy] at hx; exact absurd hx hne
      · simp [truthy, hn, iterPy] at hx
  case str =>
      by_cases hs : s = ""
      · subst hs; simp [truthy] at hx; exact absurd hx hne
      · simp only [truthy, iterPy] at hx
        have : (s.data.map fun c => PyValue.str (String.singleton c)).filterMap extractOne = [] := by
          rw [List.filterMap_eq_nil_iff]
          intro a ha
          simp only [List.mem_map] at ha
          obtain ⟨c, _, hc⟩ := ha
          subst hc
          simp [extractOne, pyGet]
        simp [hs, this] at hx
        exact absurd hx hne
  case list =>
      rcases items with _ | ⟨it, its⟩
      · simp [truthy] at hx; exact absurd hx hne
      · exact ⟨it :: its, rfl, by simp, by simp [truthy]⟩
  case dict =>
      by_cases hk : kvs.isEmpty
      · simp [truthy, hk] at hx; exact absurd hx hne
      · simp only [truthy, iterPy] at hx
        have : (kvs.map fun kv => PyValue.str kv.fst).filterMap extractOne = [] := by
          rw [List.filterMap_eq_nil_iff]
          intro a ha
          simp only [List.mem_map] at ha
          obtain ⟨kv, _, hkv⟩ := ha
          subst hkv
          simp [extractOne, pyGet]
        simp [hk, this] at hx
        exact absurd hx hne

theorem bindOkE {α β : Type} (a : α) (f : α → Except String β) :
    (Except.ok a >>= f) = f a := rfl

theorem bindErrE {α β : Type} (e : String) (f : α → Except String β) :
    ((Except.error e : Except String α) >>= f) = Except.error e := rfl

theorem pureE {α : Type} (a : α) : (pure a : Except String α) = Except.ok a := rfl

/-- `get_user` only ever returns a dict envelope. -/
theorem get_user_ok_isDict (u v : PyValue) (h : get_user u = .ok v) :
    isDict v = true := by
  unfold get_user at h
  cases hf : _find_user_by_id u <;> rw [hf] at h
  · simp [bindErrE] at h
  · rename_i user?
    by_cases ho : optFalsy user? = true <;>
      simp [bindOkE, ho, pureE] at h <;> simp [← h, isDict]

/-- `get_medication_by_name` only ever returns a dict envelope. -/
theorem get_medication_by_name_ok_isDict (n v : PyValue)
    (h : get_medication_by_name n = .ok v) : isDict v = true := by
  unfold get_medication_by_name at h
  cases hf : _find_med_by_name n <;> rw [hf] at h
  · simp [bindErrE] at h
  · rename_i med?
    by_cases ho : optFalsy med? = true <;>
      simp [bindOkE, ho, pureE] at h <;> simp [← h, isDict]

/-- `check_stock` only ever returns a dict envelope. -/
theorem check_stock_ok_isDict (n v : PyValue) (h : check_stock n = .ok v) :
    isDict v = true := by
  unfold check_stock at h
  cases hf : _find_med_by_name n <;> rw [hf] at h
  · simp [bindErrE] at h
  · rename_i med?
    by_cases ho : optFalsy med? = true
    · simp [bindOkE, ho, pureE] at h; simp [← h, isDict]
    · rw [bindOkE] at h
      simp only [ho, if_false, Bool.false_eq_true] at h
      cases hi : py_int (pyGetD (med?.getD .none) "stock" (.int 0)) <;>
        simp [bindOkE, bindErrE, hi, pureE] at h
      simp [← h, isDict]

/-- `check_prescription` only ever returns a dict envelope. -/
theorem check_prescription_ok_isDict (u n v : PyValue)
    (h : check_prescription u n = .ok v) : isDict v = true := by
  unfold check_prescription at h
  cases hf : _find_user_by_id u <;> rw [hf] at h
  · simp [bindErrE] at h
  · rename_i user?
    by_cases ho : optFalsy user? = true
    · simp [bindOkE, ho, pureE] at h; simp [← h, isDict]
    · rw [bindOkE] at h
      simp only [ho, if_false, Bool.false_eq_true] at h
      cases hm : _find_med_by_name n <;> rw [hm] at h
      · simp [bindErrE] at h
      · rename_i med?
        by_cases hmo : optFalsy med? = true <;>
          simp [bindOkE, hmo, pureE] at h <;> simp [← h, isDict]

/-- Every value `_run_tool` returns without raising is a dict
envelope. -/
theorem run_tool_ok_isDict (tool_name args v : PyValue)
    (h : _run_tool tool_name args = .ok v) : isDict v = true := by
  unfold _run_tool at h
  split at h
  · cases hk : kwargs1 args "name" <;> rw [hk] at h
    · simp [bindErrE] at h
    · rw [bindOkE] at h; exact get_medication_by_name_ok_isDict _ _ h
  · split at h
    · cases hk : kwargs1 args "name" <;> rw [hk] at h
      · simp [bindErrE] at h
      · rw [bindOkE] at h; exact check_stock_ok_isDict _ _ h
    · split at h
      · cases hk : kwargs2 args "user_id" "name" <;> rw [hk] at h
        · simp [bindErrE] at h
        · rw [bindOkE] at h; exact check_prescription_ok_isDict _ _ _ h
      · simp only [Except.ok.injEq] at h; simp [← h, isDict]

/-- For a non-empty string query, `_find_med_by_name` takes the scan
branch. -/
theorem find_med_scan (q : String) (hq : q ≠ "") :
    _find_med_by_name (.str q) =
      .ok (MEDICATIONS.find? (fun m => storedMedNameLower m == pyLower (pyStrip q))) := by
  unfold _find_med_by_name
  rw [if_neg (by simp [truthy, hq])]

/-- For a non-empty string query, `_find_user_by_id` takes the scan
branch. -/
theorem find_user_scan (q : String) (hq : q ≠ "") :
    _find_user_by_id (.str q) =
      .ok (USERS.find? (fun u => pyGet u "user_id" == PyValue.str (pyStrip q))) := by
  unfold _find_user_by_id
  rw [if_neg (by simp [truthy, hq])]

/-- A query whose stripped-and-lowered form is empty matches no
medication: either the falsy-name short cut fires, or the scan compares
against the empty string, which no stored name lowers to. -/
theorem find_med_lower_empty (q : String) (h : pyLower (pyStrip q) = "") :
    _find_med_by_name (.str q) = .ok Option.none := by
  by_cases hq : q = ""
  · subst hq; rfl
  · rw [find_med_scan q hq, h]
    rfl

/-- A query that strips to the empty string matches no user. -/
theorem find_user_strip_empty (q : String) (h : pyStrip q = "") :
    _find_user_by_id (.str q) = .ok Option.none := by
  by_cases hq : q = ""
  · subst hq; rfl
  · rw [find_user_scan q hq, h]
    rfl

/-- C8 (amended): medication lookup is case- and
surrounding-whitespace-insensitive: any two queries with the same
stripped, lowered form find the same record (so
`"  cEtIrIzInE  "` resolves like `"Cetirizine"`); user lookup is
whitespace-insensitive only: two queries with the same stripped form
find the same user, but the comparison of the stripped id against the
stored `user_id` is case-sensitive. -/
theorem C8_lookup_matching :
    (∀ q1 q2 : String, pyLower (pyStrip q1) = pyLower (pyStrip q2) →
      _find_med_by_name (.str q1) = _find_med_by_name (.str q2)) ∧
    (∀ q1 q2 : String, pyStrip q1 = pyStrip q2 →
      _find_user_by_id (.str q1) = _find_user_by_id (.str q2)) ∧
    get_medication_by_name (.str "  cEtIrIzInE  ") =
      get_medication_by_name (.str "Cetirizine") ∧
    check_stock (.str "  cEtIrIzInE  ") = check_stock (.str "Cetirizine") := by
  refine ⟨?_, ?_, rfl, rfl⟩
  · intro q1 q2 hm
    by_cases h1 : pyLower (pyStrip q1) = ""
    · rw [find_med_lower_empty q1 h1, find_med_lower_empty q2 (hm ▸ h1)]
    · have hq1 : q1 ≠ "" := fun he => h1 (by rw [he]; rfl)
      have hq2 : q2 ≠ "" := fun he => h1 (by rw [hm, he]; rfl)
      rw [find_med_scan q1 hq1, find_med_scan q2 hq2, hm]
  · intro q1 q2 hm
    by_cases h1 : pyStrip q1 = ""
    · rw [find_user_strip_empty q1 h1, find_user_strip_empty q2 (hm ▸ h1)]
    · have hq1 : q1 ≠ "" := fun he => h1 (by rw [he]; rfl)
      have hq2 : q2 ≠ "" := fun he => h1 (by rw [hm, he]; rfl)
      rw [find_user_scan q1 hq1, find_user_scan q2 hq2, hm]

/-- C8 (counterexample): the stored user id `"u001"` is found verbatim,
but the case variant `"U001"` misses — user lookup is not
case-insensitive, contrary to the claim. -/
theorem C8_user_case_counterexample :
    get_user (.str "u001") = .ok (.dict [("found", .bool true),
      ("user", .dict [("user_id", .str "u001"), ("name", .str "Einat Shvartz"),
        ("prescriptions", .list [.str "Amoxicillin", .str "Metformin"])])]) ∧
    get_user (.str "U001") = .ok (.dict [("found", .bool false),
      ("error", .dict [("code", .str "UNKNOWN_USER"),
        ("message", .str ("User " ++ sq ++ "U001" ++ sq ++ " not found"))])]) :=
  ⟨rfl, rfl⟩

/-- C8 (witness): the amended invariances applied at the spec's own
example query and at a whitespace variant of a stored user id. -/
theorem C8_lookup_matching_witness :
    _find_med_by_name (.str "  cEtIrIzInE  ") = _find_med_by_name (.str "Cetirizine") ∧
    _find_user_by_id (.str "  u002  ") = _find_user_by_id (.str "u002") :=
  ⟨C8_lookup_matching.1 "  cEtIrIzInE  " "Cetirizine" rfl,
   C8_lookup_matching.2.1 "  u002  " "u002" rfl⟩

/-- C7: over the shipped dataset, `check_prescription` returns the five
expected envelopes, and every success envelope carries both of the
`requires_prescription` and `user_has_prescription` booleans. -/
theorem C7_check_prescription_dataset :
    check_prescription (.str "u001") (.str "Amoxicillin") =
      .ok (.dict [("ok", .bool true), ("name", .str "Amoxicillin"),
        ("requires_prescription", .bool true), ("user_has_prescription", .bool true)]) ∧
    check_prescription (.str "u002") (.str "Amoxicillin") =
      .ok (.dict [("ok", .bool true), ("name", .str "Amoxicillin"),
        ("requires_prescription", .bool true), ("user_has_prescription", .bool false)]) ∧
    check_prescription (.str "u002") (.str "Paracetamol") =
      .ok (.dict [("ok", .bool true), ("name", .str "Paracetamol"),
        ("requires_prescription", .bool false), ("user_has_prescription", .bool false)]) ∧
    check_prescription (.str "u001") (.str "DoesNotExist") =
      .ok (.dict [("ok", .bool false),
        ("error", .dict [("code", .str "NOT_FOUND"),
          ("message", .str ("Medication " ++ sq ++ "DoesNotExist" ++ sq ++ " not found"))])]) ∧
    check_prescription (.str "u999") (.str "Paracetamol") =
      .ok (.dict [("ok", .bool false),
        ("error", .dict [("code", .str "UNKNOWN_USER"),
          ("message", .str ("User " ++ sq ++ "u999" ++ sq ++ " not found"))])]) ∧
    ∀ (u n env : PyValue), check_prescription u n = .ok env →
      pyGet env "ok" = .bool true →
      (∃ b, pyGet env "requires_prescription" = PyValue.bool b) ∧
      (∃ b, pyGet env "user_has_prescription" = PyValue.bool b) := by
  refine ⟨rfl, rfl, rfl, rfl, rfl, ?_⟩
  intro u n env h hok
  unfold check_prescription at h
  cases hf : _find_user_by_id u <;> rw [hf] at h
  · simp [bindErrE] at h
  · rename_i user?
    by_cases ho : optFalsy user? = true
    · simp [bindOkE, ho, pureE] at h
      rw [← h] at hok
      simp [pyGet, dictGet?, List.find?] at hok
    · rw [bindOkE] at h
      simp only [ho, if_false, Bool.false_eq_true] at h
      cases hm : _find_med_by_name n <;> rw [hm] at h
      · simp [bindErrE] at h
      · rename_i med?
        by_cases hmo : optFalsy med? = true
        · simp [bindOkE, hmo, pureE] at h
          rw [← h] at hok
          simp [pyGet, dictGet?, List.find?] at hok
        · simp [bindOkE, hmo, pureE] at h
          rw [← h]
          exact ⟨⟨_, rfl⟩, ⟨_, rfl⟩⟩

/-- C7 (witness): the success-envelope shape obligation discharged at
the dataset point `("u001", "Amoxicillin")`. -/
theorem C7_check_prescription_dataset_witness :
    (∃ b, pyGet (.dict [("ok", .bool true), ("name", .str "Amoxicillin"),
      ("requires_prescription", .bool true), ("user_has_prescription", .bool true)])
        "requires_prescription" = PyValue.bool b) ∧
    (∃ b, pyGet (.dict [("ok", .bool true), ("name", .str "Amoxicillin"),
      ("requires_prescription", .bool true), ("user_has_prescription", .bool true)])
        "user_has_prescription" = PyValue.bool b) :=
  C7_check_prescription_dataset.2.2.2.2.2 (.str "u001") (.str "Amoxicillin") _ rfl rfl

/-- C10: on empty-string inputs every Tool Layer operation returns its
error envelope (no exception, no record found): `get_user` reports
`UNKNOWN_USER`, the two medication lookups report `NOT_FOUND`, and
`check_prescription` reports `UNKNOWN_USER` for every medication
name. -/
theorem C10_empty_string_inputs :
    get_user (.str "") = .ok (.dict [("found", .bool false),
      ("error", .dict [("code", .str "UNKNOWN_USER"),
        ("message", .str ("User " ++ sq ++ sq ++ " not found"))])]) ∧
    get_medication_by_name (.str "") = .ok (.dict [("found", .bool false),
      ("error", .dict [("code", .str "NOT_FOUND"),
        ("message", .str ("Medication " ++ sq ++ sq ++ " not found"))])]) ∧
    check_stock (.str "") = .ok (.dict [("found", .bool false),
      ("error", .dict [("code", .str "NOT_FOUND"),
        ("message", .str ("Medication " ++ sq ++ sq ++ " not found"))])]) ∧
    ∀ name : PyValue, check_prescription (.str "") name =
      .ok (.dict [("ok", .bool false),
        ("error", .dict [("code", .str "UNKNOWN_USER"),
          ("message", .str ("User " ++ sq ++ sq ++ " not found"))])]) :=
  ⟨rfl, rfl, rfl, fun _ => rfl⟩

/-- C5 (counterexample): the string `"null"` parses as JSON `null`, so
`_normalize_args` returns Python `None` — not a key/value mapping as
the claim states. -/
theorem C5_normalize_args_counterexample :
    _normalize_args (PyValue.str "null") = PyValue.none ∧
    isDict (_normalize_args (PyValue.str "null")) = false :=
  ⟨rfl, rfl⟩

/-- C5 (amended): a mapping passes through unchanged, an absent payload
and a failed parse give the empty mapping, a successfully parsed string
yields the parse result as-is (a mapping only when the text encodes a
JSON object), and every other payload shape gives the empty mapping; no
exception propagates (the function is total). -/
theorem C5_normalize_args_amended :
    (∀ kvs, _normalize_args (.dict kvs) = .dict kvs) ∧
    _normalize_args .none = .dict [] ∧
    (∀ s v, json_loads s = .ok v → _normalize_args (.str s) = v) ∧
    (∀ s e, json_loads s = .error e → _normalize_args (.str s) = .dict []) ∧
    (∀ args : PyValue, isDict (_normalize_args args) = true ∨
      ∃ s v, args = .str s ∧ json_loads s = .ok v ∧ _normalize_args args = v) := by
  refine ⟨fun kvs => rfl, rfl, ?_, ?_, ?_⟩
  · intro s v h; simp [_normalize_args, h]
  · intro s e h; simp [_normalize_args, h]
  · intro args
    cases args with
    | str s =>
        cases h : json_loads s with
        | ok v => exact Or.inr ⟨s, v, rfl, h, by simp [_normalize_args, h]⟩
        | error e => exact Or.inl (by simp [_normalize_args, h, isDict])
    | none => exact Or.inl rfl
    | bool b => exact Or.inl rfl
    | int n => exact Or.inl rfl
    | list xs => exact Or.inl rfl
    | dict kvs => exact Or.inl rfl

/-- C5 (witness): the parse-success and parse-failure obligations
discharged at `"\x7b\x7d"` (an empty JSON object) and `"not json"`. -/
theorem C5_normalize_args_amended_witness :
    _normalize_args (.str "\x7b\x7d") = .dict [] ∧
    _normalize_args (.str "not json") = .dict [] :=
  ⟨C5_normalize_args_amended.2.2.1 "\x7b\x7d" (.dict []) rfl,
   C5_normalize_args_amended.2.2.2.1 "not json" "Expecting value" rfl⟩

/-- C10 (witness): the universally quantified `check_prescription`
conjunct applied at the concrete name `"Paracetamol"`. -/
theorem C10_empty_string_inputs_witness :
    check_prescription (.str "") (.str "Paracetamol") =
      .ok (.dict [("ok", .bool false),
        ("error", .dict [("code", .str "UNKNOWN_USER"),
          ("message", .str ("User " ++ sq ++ sq ++ " not found"))])]) :=
  C10_empty_string_inputs.2.2.2 (.str "Paracetamol")

/-- C4: the dispatcher produces exactly one structured envelope per
call: an unknown tool name gives the `UNKNOWN_TOOL` envelope, an
exception raised by the routed operation is caught at the call site and
becomes a `TOOL_ERROR` envelope carrying the exception text, dispatch
is total (always a dict envelope, never a propagated exception), and a
completed loop maps each call to an output item depending on that call
alone — one call's fault never disturbs its siblings. -/
theorem C4_dispatch_envelopes :
    (∀ name args : PyValue,
      name ≠ .str "get_medication_by_name" → name ≠ .str "check_stock" →
      name ≠ .str "check_prescription" →
      dispatch_call name args = .dict [("ok", .bool false),
        ("error", .dict [("code", .str "UNKNOWN_TOOL"),
          ("message", .str ("Tool " ++ sq ++ pyStr name ++ sq ++ " not implemented"))])] ∧
      _run_tool name args = .ok (dispatch_call name args)) ∧
    (∀ (name args : PyValue) (e : String), _run_tool name args = .error e →
      dispatch_call name args = .dict [("ok", .bool false),
        ("error", .dict [("code", .str "TOOL_ERROR"), ("message", .str e)])]) ∧
    (∀ name args : PyValue, isDict (dispatch_call name args) = true) ∧
    (∀ (user_id : String) (calls : List FnCall) (evs : List Event) (outs : List PyValue),
      processCalls user_id calls = (evs, outs, Option.none) →
      outs = calls.map (callOutputItem user_id)) := by
  refine ⟨?_, ?_, ?_, processCalls_outputs⟩
  · intro name args h1 h2 h3
    have hrun : _run_tool name args = .ok (.dict [("ok", .bool false),
        ("error", .dict [("code", .str "UNKNOWN_TOOL"),
          ("message", .str ("Tool " ++ sq ++ pyStr name ++ sq ++ " not implemented"))])]) := by
      unfold _run_tool
      rw [if_neg (by simp [h1]), if_neg (by simp [h2]), if_neg (by simp [h3])]
    refine ⟨?_, ?_⟩
    · unfold dispatch_call
      rw [hrun]
    · unfold dispatch_call
      rw [hrun]
  · intro name args e h
    unfold dispatch_call
    rw [h]
  · intro name args
    unfold dispatch_call
    cases h : _run_tool name args with
    | ok v => exact run_tool_ok_isDict name args v h
    | error e => rfl

/-- C4 (witness): the unknown-tool, caught-exception, and
sibling-isolation obligations discharged at concrete calls (a tool name
outside the schema, `check_stock` invoked without its required keyword,
and a one-call loop). -/
theorem C4_dispatch_envelopes_witness :
    dispatch_call (.str "place_order") (.dict []) = .dict [("ok", .bool false),
      ("error", .dict [("code", .str "UNKNOWN_TOOL"),
        ("message", .str ("Tool " ++ sq ++ "place_order" ++ sq ++ " not implemented"))])] ∧
    dispatch_call (.str "check_stock") (.dict []) = .dict [("ok", .bool false),
      ("error", .dict [("code", .str "TOOL_ERROR"),
        ("message", .str ("TypeError: missing required argument " ++ sq ++ "name" ++ sq))])] ∧
    [mkOutputItem (.str "cid1") (.dict [("found", .bool true),
      ("name", .str "Paracetamol"), ("stock", .int 42)])] =
      [(⟨.str "check_stock", .dict [("name", .str "Paracetamol")], .str "cid1"⟩ : FnCall)].map
        (callOutputItem "u001") :=
  ⟨((C4_dispatch_envelopes.1 (.str "place_order") (.dict [])
      (by simp) (by simp) (by simp)).1),
   C4_dispatch_envelopes.2.1 (.str "check_stock") (.dict [])
     ("TypeError: missing required argument " ++ sq ++ "name" ++ sq) rfl,
   C4_dispatch_envelopes.2.2.2 "u001"
     [⟨.str "check_stock", .dict [("name", .str "Paracetamol")], .str "cid1"⟩]
     [.toolDispatch (.str "check_stock") (.dict [("name", .str "Paracetamol")])]
     [mkOutputItem (.str "cid1") (.dict [("found", .bool true),
       ("name", .str "Paracetamol"), ("stock", .int 42)])] rfl⟩

/-- C6: for an extracted `check_prescription` call whose normalized
arguments form a mapping without a `user_id` key, the loop hands the
dispatcher that mapping extended with the gated request's user
identifier (and nothing else); a mapping that already binds `user_id`
is passed through unchanged. -/
theorem C6_user_id_injection (user_id : String) (call : FnCall)
    (m : List (String × PyValue))
    (hname : call.name = .str "check_prescription")
    (hnorm : _normalize_args call.arguments = .dict m) :
    (dictGet? m "user_id" = Option.none →
      callArgs user_id call = .ok (.dict (m ++ [("user_id", .str user_id)])) ∧
      pyGet (.dict (m ++ [("user_id", .str user_id)])) "user_id" = .str user_id ∧
      ∀ rest : List FnCall,
        (processCalls user_id (call :: rest)).1.head? =
          some (.toolDispatch call.name (.dict (m ++ [("user_id", .str user_id)])))) ∧
    (∀ v, dictGet? m "user_id" = some v →
      callArgs user_id call = .ok (.dict m) ∧
      ∀ rest : List FnCall,
        (processCalls user_id (call :: rest)).1.head? =
          some (.toolDispatch call.name (.dict m))) := by
  have hca : callArgs user_id call =
      (if (dictGet? m "user_id").isSome then Except.ok (.dict m)
       else Except.ok (.dict (setKey m "user_id" (.str user_id)))) := by
    unfold callArgs
    rw [hnorm, hname]
    simp [bindOkE, pyIn, pySetItem, pureE]
  constructor
  · intro habs
    have hset := setKey_absent m "user_id" (.str user_id) habs
    have hargs : callArgs user_id call = .ok (.dict (m ++ [("user_id", .str user_id)])) := by
      rw [hca, if_neg (by simp [habs]), hset]
    refine ⟨hargs, ?_, ?_⟩
    · simp [pyGet, dictGet?_append_absent m "user_id" (.str user_id) habs]
    · intro rest
      unfold processCalls
      rw [hargs]
      rcases hp : processCalls user_id rest with ⟨revs, routs, rerr⟩
      rfl
  · intro v hv
    have hargs : callArgs user_id call = .ok (.dict m) := by
      rw [hca, if_pos (by simp [hv])]
    refine ⟨hargs, ?_⟩
    intro rest
    unfold processCalls
    rw [hargs]
    rcases hp : processCalls user_id rest with ⟨revs, routs, rerr⟩
    rfl

/-- C6 (witness): the injection and pass-through obligations discharged
for concrete extracted calls under the gated user `"u007"`. -/
theorem C6_user_id_injection_witness :
    callArgs "u007" ⟨.str "check_prescription",
        .dict [("name", .str "Amoxicillin")], .str "c1"⟩ =
      .ok (.dict [("name", .str "Amoxicillin"), ("user_id", .str "u007")]) ∧
    callArgs "u007" ⟨.str "check_prescription",
        .dict [("user_id", .str "u003"), ("name", .str "Amoxicillin")], .str "c2"⟩ =
      .ok (.dict [("user_id", .str "u003"), ("name", .str "Amoxicillin")]) :=
  ⟨((C6_user_id_injection "u007"
      ⟨.str "check_prescription", .dict [("name", .str "Amoxicillin")], .str "c1"⟩
      [("name", .str "Amoxicillin")] rfl rfl).1 rfl).1,
   ((C6_user_id_injection "u007"
      ⟨.str "check_prescription",
        .dict [("user_id", .str "u003"), ("name", .str "Amoxicillin")], .str "c2"⟩
      [("user_id", .str "u003"), ("name", .str "Amoxicillin")] rfl rfl).2
      (.str "u003") rfl).1⟩

/-- C2: when the identity gate reports the user absent, the whole trace
is exactly one user-facing message — selected by the language heuristic
applied to the incoming user message — with no Model Backend call
(neither decision nor streaming) and no tool dispatch, for every
decision response the backend could have produced. -/
theorem C2_unknown_user_gate (user_id user_message : String)
    (resp user_res : PyValue)
    (hu : get_user (.str user_id) = .ok user_res)
    (habs : truthy (pyGet user_res "found") = false) :
    stream_agent_reply user_id user_message resp =
      [.yield (if _looks_hebrew user_message then unknownUserMsgHe user_id
        else unknownUserMsgEn user_id)] ∧
    (stream_agent_reply user_id user_message resp).countP isModelCallEv = 0 ∧
    (stream_agent_reply user_id user_message resp).countP isDispatchEv = 0 ∧
    (stream_agent_reply user_id user_message resp).countP isYieldEv = 1 := by
  have htr : stream_agent_reply user_id user_message resp =
      [.yield (if _looks_hebrew user_message then unknownUserMsgHe user_id
        else unknownUserMsgEn user_id)] := by
    unfold stream_agent_reply
    simp only [hu, habs]
    cases _looks_hebrew user_message <;> simp
  exact ⟨htr, by rw [htr]; rfl, by rw [htr]; rfl, by rw [htr]; rfl⟩

/-- C2 (witness): the gate obligations discharged at the unknown user
id `"u999"`. -/
theorem C2_unknown_user_gate_witness :
    (stream_agent_reply "u999" "hi" (.dict [])).countP isModelCallEv = 0 ∧
    (stream_agent_reply "u999" "hi" (.dict [])).countP isYieldEv = 1 :=
  ⟨(C2_unknown_user_gate "u999" "hi" (.dict []) _ rfl rfl).2.1,
   (C2_unknown_user_gate "u999" "hi" (.dict []) _ rfl rfl).2.2.2⟩

/-- C9: under the tool-execution precondition (at least one extracted
call), the decision output re-read before the final call is a non-empty
list, so the fixed internal-error message is never yielded on any
branch of the remainder of the run. -/
theorem C9_internal_error_unreachable (user_id user_message : String)
    (resp user_res : PyValue) (calls : List FnCall)
    (hu : get_user (.str user_id) = .ok user_res)
    (hfound : truthy (pyGet user_res "found") = true)
    (hx : _extract_function_calls resp = .ok calls)
    (hne : calls ≠ []) :
    Event.yield internalErrMsg ∉ stream_agent_reply user_id user_message resp := by
  obtain ⟨items, hout, hine, htruthy⟩ := extract_calls_output_list resp calls hx hne
  have hisEmpty : calls.isEmpty = false := by
    cases calls
    · exact absurd rfl hne
    · rfl
  unfold stream_agent_reply
  simp only [hu]
  rw [if_neg (by simp [hfound])]
  simp only [hx, hisEmpty, Bool.false_eq_true, if_false]
  rcases hp : processCalls user_id calls with ⟨evs, outs, err?⟩
  have hevs : ∀ e ∈ evs, isDispatchEv e = true := by
    intro e he
    exact processCalls_events_dispatch user_id calls e (by rw [hp]; exact he)
  intro hmem
  simp only [List.mem_cons, List.mem_append] at hmem
  rcases hmem with hmem | hmem
  · exact absurd hmem (by simp)
  cases err? with
  | some e =>
      simp only [List.mem_append, List.mem_singleton] at hmem
      rcases hmem with hmem | hmem
      · have := hevs _ hmem
        simp [isDispatchEv] at this
      · exact absurd hmem (by simp)
  | none =>
      simp only [List.mem_append] at hmem
      rcases hmem with hmem | hmem
      · have := hevs _ hmem
        simp [isDispatchEv] at this
      · by_cases hnf : hasNotFound outs = true
        · rw [if_pos hnf] at hmem
          by_cases hheb : _looks_hebrew user_message = true
          · rw [if_pos hheb] at hmem
            simp only [List.mem_singleton, Event.yield.injEq] at hmem
            exact absurd hmem (by decide)
          · rw [if_neg hheb] at hmem
            simp only [List.mem_singleton, Event.yield.injEq] at hmem
            exact absurd hmem (by decide)
        · rw [if_neg hnf] at hmem
          rw [hout] at hmem
          rw [if_neg (by simp [htruthy])] at hmem
          simp only [iterPy] at hmem
          simp at hmem

/-- C9 (witness): the unreachability obligation discharged at a
concrete two-call decision response for the known user `"u001"`. -/
theorem C9_internal_error_unreachable_witness :
    Event.yield internalErrMsg ∉ stream_agent_reply "u001" "hi" respC3 :=
  C9_internal_error_unreachable "u001" "hi" respC3 _ _ rfl rfl rfl
    (by decide)

/-- C1: if, after a completed dispatch loop, any collected envelope
carries `NOT_FOUND`, the remainder of the trace is exactly one fixed,
language-selected apology (Hebrew iff the user message contains a
Hebrew-block character) and no streaming call is ever issued —
regardless of how many sibling calls succeeded. -/
theorem C1_not_found_short_circuit (user_id user_message : String)
    (resp user_res : PyValue) (calls : List FnCall)
    (evs : List Event) (outs : List PyValue)
    (hu : get_user (.str user_id) = .ok user_res)
    (hfound : truthy (pyGet user_res "found") = true)
    (hx : _extract_function_calls resp = .ok calls)
    (hne : calls ≠ [])
    (hp : processCalls user_id calls = (evs, outs, Option.none))
    (hnf : hasNotFound outs = true) :
    stream_agent_reply user_id user_message resp =
      Event.decisionCall (base_input user_id user_message user_res) ::
        evs ++ [Event.yield (if _looks_hebrew user_message then apologyHe
          else apologyEn)] ∧
    (stream_agent_reply user_id user_message resp).countP isYieldEv = 1 ∧
    (stream_agent_reply user_id user_message resp).countP isStreamCallEv = 0 := by
  have hisEmpty : calls.isEmpty = false := by
    cases calls
    · exact absurd rfl hne
    · rfl
  have htr : stream_agent_reply user_id user_message resp =
      Event.decisionCall (base_input user_id user_message user_res) ::
        evs ++ [Event.yield (if _looks_hebrew user_message then apologyHe
          else apologyEn)] := by
    unfold stream_agent_reply
    simp only [hu]
    rw [if_neg (by simp [hfound])]
    simp only [hx, hisEmpty, Bool.false_eq_true, if_false, hp]
    rw [if_pos hnf]
    cases _looks_hebrew user_message <;> simp
  have hevs : ∀ e ∈ evs, isDispatchEv e = true := by
    intro e he
    exact processCalls_events_dispatch user_id calls e (by rw [hp]; exact he)
  have hy0 : evs.countP isYieldEv = 0 := by
    rw [List.countP_eq_zero]
    intro e he
    have := hevs e he
    cases e <;> simp_all [isDispatchEv, isYieldEv]
  have hs0 : evs.countP isStreamCallEv = 0 := by
    rw [List.countP_eq_zero]
    intro e he
    have := hevs e he
    cases e <;> simp_all [isDispatchEv, isStreamCallEv]
  refine ⟨htr, ?_, ?_⟩ <;>
    simp [htr, List.countP_cons, List.countP_append, hy0, hs0,
      isYieldEv, isStreamCallEv]

/-- C1 (witness): the short-circuit obligations discharged at a
concrete decision response pairing a successful `check_stock` with a
missing-medication lookup, for the known user `"u001"`. -/
theorem C1_not_found_short_circuit_witness :
    (stream_agent_reply "u001" "hi" respC1).countP isYieldEv = 1 ∧
    (stream_agent_reply "u001" "hi" respC1).countP isStreamCallEv = 0 :=
  ⟨(C1_not_found_short_circuit "u001" "hi" respC1 _ _ _ _ rfl rfl rfl
      (by decide) rfl rfl).2.1,
   (C1_not_found_short_circuit "u001" "hi" respC1 _ _ _ _ rfl rfl rfl
      (by decide) rfl rfl).2.2⟩

/-- In a duplicate-free list, an element occurring in it is counted
exactly once by the equality predicate. -/
theorem countP_beq_eq_one (a : PyValue) : ∀ (l : List PyValue), l.Nodup → a ∈ l →
    l.countP (fun x => x == a) = 1
  | [], _, h => by simp at h
  | x :: xs, hnd, hmem => by
      rw [List.nodup_cons] at hnd
      rw [List.countP_cons]
      rcases List.mem_cons.mp hmem with h | h
      · have hx : (x == a) = true := beq_iff_eq.mpr h.symm
        have h0 : xs.countP (fun y => y == a) = 0 := by
          rw [List.countP_eq_zero]
          intro b hb hba
          have hb2 : a ∈ xs := (beq_iff_eq.mp hba) ▸ hb
          exact hnd.1 (h ▸ hb2)
        rw [h0, hx]
        rfl
      · have hxa : (x == a) = false := by
          refine beq_eq_false_iff_ne.mpr fun hxe => ?_
          exact hnd.1 (by rw [hxe]; exact h)
        rw [countP_beq_eq_one a xs hnd.2 h, hxa]
        rfl

/-- C3: when no short-circuit triggers, the final streaming call's
input is exactly the base input, then the verbatim decision output
items, then the collected output items; the output items' call ids
reproduce the extracted calls' ids in the same order, and under
distinct extracted ids every id occurs exactly once among the output
items. -/
theorem C3_final_input_round_trip (user_id user_message : String)
    (resp user_res : PyValue) (calls : List FnCall) (items : List PyValue)
    (evs : List Event) (outs : List PyValue)
    (hu : get_user (.str user_id) = .ok user_res)
    (hfound : truthy (pyGet user_res "found") = true)
    (hx : _extract_function_calls resp = .ok calls)
    (hne : calls ≠ [])
    (hout : respOutputOf resp = .list items)
    (hp : processCalls user_id calls = (evs, outs, Option.none))
    (hnf : hasNotFound outs = false) :
    stream_agent_reply user_id user_message resp =
      Event.decisionCall (base_input user_id user_message user_res) ::
        evs ++ [Event.streamCall
          (base_input user_id user_message user_res ++ items ++ outs) true] ∧
    outs.map (fun o => pyGet o "call_id") = calls.map FnCall.call_id ∧
    ((calls.map FnCall.call_id).Nodup → ∀ c ∈ calls,
      outs.countP (fun o => pyGet o "call_id" == c.call_id) = 1) := by
  obtain ⟨items0, hout0, hine0, htruthy0⟩ := extract_calls_output_list resp calls hx hne
  have hitems : items0 = items := by
    rw [hout0] at hout
    exact (PyValue.list.inj hout)
  rw [hitems] at hout0 hine0 htruthy0
  have hisEmpty : calls.isEmpty = false := by
    cases calls
    · exact absurd rfl hne
    · rfl
  have houts := processCalls_outputs user_id calls evs outs hp
  have hmap : outs.map (fun o => pyGet o "call_id") = calls.map FnCall.call_id := by
    rw [houts, List.map_map]
    exact List.map_congr_left (fun c _ => callOutputItem_call_id user_id c)
  have htr : stream_agent_reply user_id user_message resp =
      Event.decisionCall (base_input user_id user_message user_res) ::
        evs ++ [Event.streamCall
          (base_input user_id user_message user_res ++ items ++ outs) true] := by
    unfold stream_agent_reply
    simp only [hu]
    rw [if_neg (by simp [hfound])]
    simp only [hx, hisEmpty, Bool.false_eq_true, if_false, hp]
    rw [if_neg (by simp [hnf])]
    simp only [hout0]
    rw [if_neg (by simp [htruthy0])]
    rfl
  refine ⟨htr, hmap, ?_⟩
  intro hnd c hc
  have h1 : outs.countP (fun o => pyGet o "call_id" == c.call_id) =
      (outs.map (fun o => pyGet o "call_id")).countP (fun x => x == c.call_id) := by
    rw [List.countP_map]
    rfl
  rw [h1, hmap]
  exact countP_beq_eq_one c.call_id (calls.map FnCall.call_id) hnd
    (List.mem_map_of_mem FnCall.call_id hc)

/-- C3 (witness): the round-trip obligations discharged at a concrete
two-call response with distinct call ids for the known user
`"u001"`. -/
theorem C3_final_input_round_trip_witness :
    ((processCalls "u001" [
      ⟨.str "check_stock", .dict [("name", .str "Paracetamol")], .str "call_a"⟩,
      ⟨.str "check_prescription", .dict [("name", .str "Amoxicillin")], .str "call_b"⟩]).2.1).map
        (fun o => pyGet o "call_id") =
      [PyValue.str "call_a", PyValue.str "call_b"] ∧
    ((processCalls "u001" [
      ⟨.str "check_stock", .dict [("name", .str "Paracetamol")], .str "call_a"⟩,
      ⟨.str "check_prescription", .dict [("name", .str "Amoxicillin")], .str "call_b"⟩]).2.1).countP
        (fun o => pyGet o "call_id" == PyValue.str "call_a") = 1 := by
  have h := C3_final_input_round_trip "u001" "hi" respC3 _ _ _ _ _
    rfl rfl rfl (by decide) rfl rfl rfl
  exact ⟨h.2.1, h.2.2 (by decide)
    ⟨.str "check_stock", .dict [("name", .str "Paracetamol")], .str "call_a"⟩
    (by decide)⟩


end PharmacyAgent
